import Mathlib

/-!
Shallow embedding of the Telegram P2P Stripe escrow service.

Models the Deal and User Mongo schemas, the bot command handlers
(deal creation, `/release`, `/dispute`), the Stripe webhook handlers
(`handlePaymentSucceeded`, `handlePaymentFailed`) and the payment page
route (`GET /payment/:dealId`) of the repository, and proves the frozen
claims about them.  Timestamps are abstract `Nat` clock values; gateway
calls are modelled by an `Option`-valued oracle argument (`none` = the
Stripe call threw, `some x` = it returned object id `x`).
-/

namespace Escrow

/-- Deal lifecycle statuses, from the `status` enum of the Deal schema. -/
inductive DealStatus
  | created
  | paid
  | completed
  | disputed
  | cancelled
  | refunded
deriving DecidableEq

/-- Stripe Connect account statuses, from the `stripeAccountStatus` enum of
the User schema. -/
inductive AccountStatus
  | none
  | pending
  | active
  | restricted
deriving DecidableEq

/-- A User document (the fields the escrow logic reads or writes). -/
structure User where
  telegramId : String
  stripeAccountId : Option String
  stripeAccountStatus : AccountStatus
  isActive : Bool
  isBanned : Bool
  successfulDeals : Nat
deriving DecidableEq

/-- A Deal document (the fields the escrow logic reads or writes). -/
structure Deal where
  dealId : String
  buyerId : String
  sellerId : String
  amount : Nat
  description : String
  status : DealStatus
  stripePaymentIntentId : Option String
  stripeTransferId : Option String
  platformFeePercent : Nat
  disputeReason : Option String
  disputedBy : Option String
  disputedAt : Option Nat
  completedAt : Option Nat
deriving DecidableEq

/-- The Mongo store: the `users` and `deals` collections. -/
structure Store where
  users : List User
  deals : List Deal
deriving DecidableEq

/-- `Deal.findOne({ stripePaymentIntentId: pid })`. -/
def findDealByIntent (deals : List Deal) (pid : String) : Option Deal :=
  deals.find? (fun d => d.stripePaymentIntentId == some pid)

/-- Persisting a modified deal document (`deal.save()` on a fetched
document): the stored document with the same `dealId` is replaced by the
new version. -/
def saveDeal (deals : List Deal) (d : Deal) : List Deal :=
  deals.map (fun x => if x.dealId == d.dealId then d else x)

/-- Status of the deal with the given `dealId` in the store, if any. -/
def dealStatus (s : Store) (id : String) : Option DealStatus :=
  (s.deals.find? (fun d => d.dealId == id)).map (fun d => d.status)

/-- Webhook branch for `payment_intent.succeeded` (`handlePaymentSucceeded`
in `src/webhooks/stripe.js`): looks the deal up by payment-intent id; if
absent, logs and acknowledges; otherwise assigns `status = 'paid'`
(unconditionally, with no check of the current status) and saves.  The
`Bool` component is the webhook acknowledgement (`{ received: true }`). -/
def handlePaymentSucceeded (s : Store) (pid : String) : Store × Bool :=
  match findDealByIntent s.deals pid with
  | Option.none => (s, true)
  | Option.some d =>
      ({ s with deals := saveDeal s.deals { d with status := DealStatus.paid } }, true)

/-- Webhook branch for `payment_intent.payment_failed`
(`handlePaymentFailed`): notifies the buyer, mutates no deal state. -/
def handlePaymentFailed (s : Store) (_pid : String) : Store × Bool :=
  (s, true)

/-- A user document as the bot middleware creates it, with the given
Stripe connection data. -/
def mkUser (tid : String) (acc : Option String) (st : AccountStatus) : User :=
  { telegramId := tid
    stripeAccountId := acc
    stripeAccountStatus := st
    isActive := true
    isBanned := false
    successfulDeals := 0 }

/-- The deal document built by `new Deal({...})` in the bot's deal-creation
step, with the schema defaults (`status: 'created'`, fee percent 3, no
Stripe ids, no dispute or completion data). -/
def newDeal (buyerId sellerId : String) (amount : Nat) (description dealId : String) : Deal :=
  { dealId := dealId
    buyerId := buyerId
    sellerId := sellerId
    amount := amount
    description := description
    status := DealStatus.created
    stripePaymentIntentId := Option.none
    stripeTransferId := Option.none
    platformFeePercent := 3
    disputeReason := Option.none
    disputedBy := Option.none
    disputedAt := Option.none
    completedAt := Option.none }

/-- Result of the bot's deal-creation step (the `seller` branch of
`bot.on('text')`). -/
inductive CreateDealResult
  | sellerNotOnboarded
  | duplicateDealId
  | gatewayFailed
  | ok (dealId : String)
deriving DecidableEq

/-- The `seller` step of `bot.on('text')`: resolves the seller, rejects if
the seller record is absent or has no `stripeAccountId` (the status field
is not consulted), then persists the new Deal (`deal.save()`; the unique
index on `dealId` makes the insert fail on a duplicate id), then calls
`stripe.paymentIntents.create` — modelled by the `gatewayIntent` oracle —
and on success stores the intent id on the already-persisted deal. -/
def createDeal (s : Store) (buyerId sellerId : String) (amount : Nat)
    (description dealId : String) (gatewayIntent : Option String) :
    CreateDealResult × Store :=
  match s.users.find? (fun u => u.telegramId == sellerId) with
  | Option.none => (CreateDealResult.sellerNotOnboarded, s)
  | Option.some seller =>
    if seller.stripeAccountId = Option.none then
      (CreateDealResult.sellerNotOnboarded, s)
    else if s.deals.any (fun d => d.dealId == dealId) then
      (CreateDealResult.duplicateDealId, s)
    else
      let d := newDeal buyerId sellerId amount description dealId
      let s1 : Store := { s with deals := s.deals ++ [d] }
      match gatewayIntent with
      | Option.none => (CreateDealResult.gatewayFailed, s1)
      | Option.some pid =>
          (CreateDealResult.ok dealId,
           { s1 with deals := saveDeal s1.deals { d with stripePaymentIntentId := Option.some pid } })

/-- The transfer amount requested by `/release`:
`Math.round(deal.amount * 0.97)` — a hardcoded 3% platform fee.  The JS
double multiplication and `Math.round` (round half toward +∞) are modelled
in exact arithmetic as `(97 * amount + 50) / 100` on natural numbers. -/
def releaseTransferAmount (amount : Nat) : Nat :=
  (97 * amount + 50) / 100

/-- Result of the `/release` command. -/
inductive ReleaseResult
  | notFoundOrNotSeller
  | notPaid
  | transferError
  | ok (transferAmount : Nat) (transferId : String)
deriving DecidableEq

/-- `$inc: { successfulDeals: 1 }` on the user with the given telegram id. -/
def incSuccessful (users : List User) (tid : String) : List User :=
  users.map (fun u =>
    if u.telegramId == tid then { u with successfulDeals := u.successfulDeals + 1 } else u)

/-- The `/release` command handler: finds the deal by
`{ dealId, sellerId: caller }`, requires status `paid`, requests the Stripe
transfer (oracle `gatewayTransfer`); on gateway success sets status
`completed`, records the transfer id and completion time, and increments
the seller's `successfulDeals`; on gateway failure the deal is untouched. -/
def release (s : Store) (callerId dealId : String) (gatewayTransfer : Option String)
    (now : Nat) : ReleaseResult × Store :=
  match s.deals.find? (fun d => d.dealId == dealId && d.sellerId == callerId) with
  | Option.none => (ReleaseResult.notFoundOrNotSeller, s)
  | Option.some d =>
    if d.status ≠ DealStatus.paid then (ReleaseResult.notPaid, s)
    else
      match gatewayTransfer with
      | Option.none => (ReleaseResult.transferError, s)
      | Option.some tid =>
          let d' := { d with
            status := DealStatus.completed
            stripeTransferId := Option.some tid
            completedAt := Option.some now }
          (ReleaseResult.ok (releaseTransferAmount d.amount) tid,
           { users := incSuccessful s.users callerId, deals := saveDeal s.deals d' })

/-- Result of the `/dispute` command. -/
inductive DisputeResult
  | notFoundOrNotParticipant
  | wrongStatus
  | ok
deriving DecidableEq

/-- The `Deal.findOne({ dealId, $or: [{buyerId}, {sellerId}] })` query of
the `/dispute` handler. -/
def disputeFind (deals : List Deal) (callerId dealId : String) : Option Deal :=
  deals.find? (fun d => d.dealId == dealId && (d.buyerId == callerId || d.sellerId == callerId))

/-- The `/dispute` command handler: finds the deal with the caller as a
participant, rejects only statuses `completed` and `disputed`, and
otherwise sets status `disputed` recording the reason and the time (the
`disputedBy` field is never written by the handler). -/
def dispute (s : Store) (callerId dealId reason : String) (now : Nat) :
    DisputeResult × Store :=
  match disputeFind s.deals callerId dealId with
  | Option.none => (DisputeResult.notFoundOrNotParticipant, s)
  | Option.some d =>
    if d.status = DealStatus.completed ∨ d.status = DealStatus.disputed then
      (DisputeResult.wrongStatus, s)
    else
      (DisputeResult.ok,
       { s with deals := saveDeal s.deals { d with
           status := DealStatus.disputed
           disputeReason := Option.some reason
           disputedAt := Option.some now } })

/-- Response of `GET /payment/:dealId`. -/
inductive PageResponse
  | form (dealId : String) (amount : Nat)
  | notFound
  | noResponse
deriving DecidableEq

/-- The payment-page route: 404 unless a deal with the id exists in status
`created`; otherwise retrieves the payment intent from Stripe (oracle
`gatewayOk`; a retrieval failure is swallowed by the empty catch block, so
no response is written) and serves the payment form.  The store is never
mutated. -/
def paymentPage (s : Store) (dealId : String) (gatewayOk : Bool) :
    PageResponse × Store :=
  match s.deals.find? (fun d => d.dealId == dealId) with
  | Option.none => (PageResponse.notFound, s)
  | Option.some d =>
    if d.status ≠ DealStatus.created then (PageResponse.notFound, s)
    else if gatewayOk then (PageResponse.form d.dealId d.amount, s)
    else (PageResponse.noResponse, s)

/-- One operation of the system: a deal-creation attempt, a webhook
delivery, a `/release` or `/dispute` command, or a payment-page request.
The `cancel_deal` button has no registered handler in the source, so there
is no cancel operation. -/
inductive Op
  | create (buyerId sellerId : String) (amount : Nat) (description dealId : String)
      (gatewayIntent : Option String)
  | paySucceeded (pid : String)
  | payFailed (pid : String)
  | rel (callerId dealId : String) (gatewayTransfer : Option String) (now : Nat)
  | disp (callerId dealId reason : String) (now : Nat)
  | page (dealId : String) (gatewayOk : Bool)

/-- Effect of one operation on the store. -/
def applyOp (s : Store) : Op → Store
  | Op.create b se a de id g => (createDeal s b se a de id g).2
  | Op.paySucceeded pid => (handlePaymentSucceeded s pid).1
  | Op.payFailed pid => (handlePaymentFailed s pid).1
  | Op.rel c id g n => (release s c id g n).2
  | Op.disp c id r n => (dispute s c id r n).2
  | Op.page id g => (paymentPage s id g).2

/-- Running a sequence of operations from a start store. -/
def run (s : Store) (ops : List Op) : Store :=
  ops.foldl applyOp s

/-- Modelled from the spec: `platformFee(amount, feePercent) =
round(amount * feePercent / 100)`, round-half-away-from-zero on integer
minor-currency units (equal to round-half-up on nonnegative values). -/
def specPlatformFee (amount feePercent : Nat) : Nat :=
  (amount * feePercent + 50) / 100

/-- Modelled from the spec: `netAmount(amount, feePercent) =
amount - platformFee(amount, feePercent)`. -/
def specNetAmount (amount feePercent : Nat) : Nat :=
  amount - specPlatformFee amount feePercent

/-- A paid deal with a non-default platform-fee percentage of 5. -/
def c2Deal : Deal :=
  { newDeal "buyer2" "seller2" 10000 "goods" "d2" with
      status := DealStatus.paid
      stripePaymentIntentId := Option.some "pi_2"
      platformFeePercent := 5 }

/-- Store for the C2 release scenario. -/
def c2Store : Store :=
  { users := [mkUser "seller2" (Option.some "acct_2") AccountStatus.active], deals := [c2Deal] }

/-- A paid deal with the default fee percentage, for the C2 witness. -/
def c2bDeal : Deal :=
  { newDeal "buyer2" "seller2" 10000 "goods" "d2b" with
      status := DealStatus.paid
      stripePaymentIntentId := Option.some "pi_2b" }

/-- Store for the C2 witness. -/
def c2bStore : Store :=
  { users := [mkUser "seller2" (Option.some "acct_2") AccountStatus.active], deals := [c2bDeal] }

/-- Store holding an onboarded seller, for the C3 scenario. -/
def c3Store : Store :=
  { users := [mkUser "seller3" (Option.some "acct_3") AccountStatus.active], deals := [] }

/-- Store holding a seller whose Stripe account is `restricted` yet has an
account id, for the C4 scenario. -/
def c4Store : Store :=
  { users := [mkUser "seller4" (Option.some "acct_4") AccountStatus.restricted], deals := [] }

/-- Store holding a seller with no Stripe account reference, for the C4
witness. -/
def c4bStore : Store :=
  { users := [mkUser "seller4" Option.none AccountStatus.none], deals := [] }

/-- Store holding a single onboarded user who will act as both buyer and
seller, for the C5 scenario. -/
def c5Store : Store :=
  { users := [mkUser "user5" (Option.some "acct_5") AccountStatus.active], deals := [] }

/-- A cancelled deal, for the C6 scenario. -/
def c6Deal : Deal :=
  { newDeal "buyer6" "seller6" 10000 "goods" "d6" with status := DealStatus.cancelled }

/-- Store for the C6 scenario. -/
def c6Store : Store := { users := [], deals := [c6Deal] }

/-- A paid deal, for the C7 dispute scenario. -/
def c7Deal : Deal :=
  { newDeal "buyer7" "seller7" 10000 "goods" "d7" with
      status := DealStatus.paid
      stripePaymentIntentId := Option.some "pi_7" }

/-- Store for the C7 scenario. -/
def c7Store : Store := { users := [], deals := [c7Deal] }

/-- Users for the C9 witness trace. -/
def c9Users : List User :=
  [mkUser "buyer9" Option.none AccountStatus.none,
   mkUser "seller9" (Option.some "acct_9") AccountStatus.active]

/-- A happy-path trace: create a deal, receive the payment webhook, then
release. -/
def c9Ops : List Op :=
  [Op.create "buyer9" "seller9" 10000 "goods" "d9" (Option.some "pi_9"),
   Op.paySucceeded "pi_9",
   Op.rel "seller9" "d9" (Option.some "tr_9") 5]

/-- A paid deal for the C10 witness. -/
def c10Deal : Deal :=
  { newDeal "buyer10" "seller10" 10000 "goods" "d10" with
      status := DealStatus.paid
      stripePaymentIntentId := Option.some "pi_10" }

/-- Store for the C10 witness. -/
def c10Store : Store := { users := [], deals := [c10Deal] }

/-- A completed deal holding payment intent `pi_1`, for evaluating the
webhook handler on an already-completed deal. -/
def c1Deal : Deal :=
  { newDeal "buyer1" "seller1" 10000 "goods" "d1" with
      status := DealStatus.completed
      stripePaymentIntentId := Option.some "pi_1"
      stripeTransferId := Option.some "tr_1" }

/-- Store containing only the completed deal `c1Deal`. -/
def c1Store : Store := { users := [], deals := [c1Deal] }

/-- Unfolding lemma: `saveDeal` on a cons cell. -/
theorem saveDeal_cons (x : Deal) (xs : List Deal) (d : Deal) :
    saveDeal (x :: xs) d = (if x.dealId == d.dealId then d else x) :: saveDeal xs d := rfl

/-- Searching an append whose first part fails searches the second part. -/
theorem find?_append_of_none {α : Type} {p : α → Bool} {l₁ : List α} (l₂ : List α)
    (h : l₁.find? p = Option.none) : (l₁ ++ l₂).find? p = l₂.find? p := by
  rw [List.find?_append, h, Option.none_or]

/-- Searching an append whose first part succeeds returns that hit. -/
theorem find?_append_of_some {α : Type} {p : α → Bool} {l₁ : List α} (l₂ : List α) {a : α}
    (h : l₁.find? p = Option.some a) : (l₁ ++ l₂).find? p = Option.some a := by
  rw [List.find?_append, h]
  rfl

/-- Saving a deal does not disturb lookups of other deal ids. -/
theorem saveDeal_find?_ne (l : List Deal) (d : Deal) (id : String) (h : d.dealId ≠ id) :
    (saveDeal l d).find? (fun x => x.dealId == id) = l.find? (fun x => x.dealId == id) := by
  induction l with
  | nil => rfl
  | cons x xs ih =>
    rw [saveDeal_cons]
    by_cases hx : x.dealId = d.dealId
    · rw [if_pos (by simp [hx]), List.find?_cons, List.find?_cons]
      have h1 : (d.dealId == id) = false := by simp [h]
      have h2 : (x.dealId == id) = false := by simp [hx, h]
      rw [h1, h2]
      exact ih
    · rw [if_neg (by simp [hx]), List.find?_cons, List.find?_cons]
      by_cases hxi : x.dealId = id
      · rw [show (x.dealId == id) = true by simp [hxi]]
      · rw [show (x.dealId == id) = false by simp [hxi]]
        exact ih

/-- Looking up the saved deal's own id after a save returns the saved
version exactly when some deal with that id was stored. -/
theorem saveDeal_find?_self (l : List Deal) (d : Deal) :
    (saveDeal l d).find? (fun x => x.dealId == d.dealId) =
      (l.find? (fun x => x.dealId == d.dealId)).map (fun _ => d) := by
  induction l with
  | nil => rfl
  | cons x xs ih =>
    rw [saveDeal_cons]
    by_cases hx : x.dealId = d.dealId
    · rw [if_pos (by simp [hx]), List.find?_cons, List.find?_cons,
        show (d.dealId == d.dealId) = true by simp,
        show (x.dealId == d.dealId) = true by simp [hx]]
      rfl
    · rw [if_neg (by simp [hx]), List.find?_cons, List.find?_cons,
        show (x.dealId == d.dealId) = false by simp [hx]]
      exact ih

/-- Variant of `saveDeal_find?_self` with the looked-up id given by an
equation. -/
theorem saveDeal_find?_eq (l : List Deal) (d : Deal) (id : String) (hid : d.dealId = id) :
    (saveDeal l d).find? (fun x => x.dealId == id) =
      (l.find? (fun x => x.dealId == id)).map (fun _ => d) := by
  subst hid
  exact saveDeal_find?_self l d

/-- After saving a new version (same `dealId`, same intent id) of the first
deal matching a payment-intent search, that search returns the new
version. -/
theorem find?_intent_saveDeal (l : List Deal) (d d' : Deal) (pid : String)
    (h : l.find? (fun x => x.stripePaymentIntentId == Option.some pid) = Option.some d)
    (hid : d'.dealId = d.dealId)
    (hpi : d'.stripePaymentIntentId = Option.some pid) :
    (saveDeal l d').find? (fun x => x.stripePaymentIntentId == Option.some pid) =
      Option.some d' := by
  induction l with
  | nil => simp at h
  | cons x xs ih =>
    rw [saveDeal_cons]
    by_cases hx : x.dealId = d'.dealId
    · rw [if_pos (by simp [hx]), List.find?_cons,
        show (d'.stripePaymentIntentId == Option.some pid) = true by simp [hpi]]
    · rw [if_neg (by simp [hx]), List.find?_cons]
      rw [List.find?_cons] at h
      by_cases hpx : x.stripePaymentIntentId = Option.some pid
      · exfalso
        rw [show (x.stripePaymentIntentId == Option.some pid) = true by simp [hpx]] at h
        have hxd : x = d := by injection h
        rw [hxd, ← hid] at hx
        exact hx rfl
      · rw [show (x.stripePaymentIntentId == Option.some pid) = false by simp [hpx]] at h ⊢
        exact ih h

/-- Saving the same deal version twice is the same as saving it once. -/
theorem saveDeal_saveDeal (l : List Deal) (d : Deal) :
    saveDeal (saveDeal l d) d = saveDeal l d := by
  induction l with
  | nil => rfl
  | cons x xs ih =>
    rw [saveDeal_cons]
    by_cases hx : x.dealId = d.dealId
    · rw [if_pos (by simp [hx]), saveDeal_cons, if_pos (by simp), ih]
    · rw [if_neg (by simp [hx]), saveDeal_cons, if_neg (by simp [hx]), ih]

/-- Saving a deal does not change the stored list of deal ids. -/
theorem saveDeal_map_dealId (l : List Deal) (d : Deal) :
    (saveDeal l d).map (fun x => x.dealId) = l.map (fun x => x.dealId) := by
  induction l with
  | nil => rfl
  | cons x xs ih =>
    rw [saveDeal_cons]
    by_cases hx : x.dealId = d.dealId
    · rw [if_pos (by simp [hx]), List.map_cons, List.map_cons, ih, hx]
    · rw [if_neg (by simp [hx]), List.map_cons, List.map_cons, ih]

/-- When deal ids are unique, the first deal matching `dealId = id` plus an
extra condition is also the first deal matching `dealId = id` alone. -/
theorem find?_compound_of_nodup (l : List Deal) (id : String) (q : Deal → Bool) (d : Deal)
    (hnd : (l.map (fun x => x.dealId)).Nodup)
    (h : l.find? (fun x => x.dealId == id && q x) = Option.some d) :
    l.find? (fun x => x.dealId == id) = Option.some d := by
  induction l with
  | nil => simp at h
  | cons x xs ih =>
    rw [List.map_cons, List.nodup_cons] at hnd
    rw [List.find?_cons] at h
    rw [List.find?_cons]
    cases hbc : (x.dealId == id && q x) with
    | true =>
      rw [hbc] at h
      have hxd : x = d := by injection h
      have hbi : (x.dealId == id) = true := (Bool.and_eq_true_iff.mp hbc).1
      rw [hbi, hxd]
    | false =>
      rw [hbc] at h
      cases hbi : (x.dealId == id) with
      | true =>
        exfalso
        have hd : d ∈ xs := List.mem_of_find?_eq_some h
        have hpd := List.find?_some h
        have h1 : d.dealId = id := by
          have := (Bool.and_eq_true_iff.mp hpd).1
          simpa using this
        have h2 : x.dealId = id := by simpa using hbi
        exact hnd.1 (List.mem_map.mpr ⟨d, hd, by rw [h1, h2]⟩)
      | false =>
        exact ih hnd.2 h

/-- The payment-page route never mutates the store. -/
theorem paymentPage_store_unchanged (s : Store) (id : String) (g : Bool) :
    (paymentPage s id g).2 = s := by
  unfold paymentPage
  rcases hf : s.deals.find? (fun d => d.dealId == id) with _ | d
  · rw [hf]
  · simp only [hf]
    split_ifs <;> rfl

/-- Claim C1: the reconciler's payment-succeeded path must leave a deal
alone unless its status is `created`.  Evaluating the embedded handler on a
store whose only deal is `completed` with intent `pi_1` shows the code
instead overwrites the status back to `paid`: the handler assigns
`status = 'paid'` without checking the current status. -/
theorem C1_payment_succeeded_overwrites_completed :
    dealStatus c1Store "d1" = Option.some DealStatus.completed ∧
    dealStatus (handlePaymentSucceeded c1Store "pi_1").1 "d1" = Option.some DealStatus.paid := by
  decide

/-- Claim C2 counterexample: on the paid deal `c2Deal`, whose
`platformFeePercent` is 5, a successful release requests a transfer of
9700 — the hardcoded `Math.round(amount * 0.97)` — and not the
`amount − round(amount × feePercent / 100) = 9500` the claim requires. -/
theorem C2_fee_percent_ignored_counterexample :
    c2Deal.platformFeePercent = 5 ∧
    (release c2Store "seller2" "d2" (Option.some "tr_2") 3).1 =
      ReleaseResult.ok (releaseTransferAmount 10000) "tr_2" ∧
    releaseTransferAmount 10000 = 9700 ∧
    specNetAmount 10000 5 = 9500 ∧
    releaseTransferAmount 10000 ≠ specNetAmount 10000 5 := by
  decide

/-- Claim C2 (amended): every successful release requests a gateway
transfer of exactly `releaseTransferAmount amount = round(amount × 97/100)`
— a hardcoded 3% fee that ignores the deal's `platformFeePercent` — and in
particular `releaseTransferAmount 10000 = 9700`. -/
theorem C2_release_transfer_amount (s : Store) (caller id : String)
    (g : Option String) (now a : Nat) (tid : String)
    (h : (release s caller id g now).1 = ReleaseResult.ok a tid) :
    ∃ d, s.deals.find? (fun x => x.dealId == id && x.sellerId == caller) = Option.some d ∧
      a = releaseTransferAmount d.amount ∧ releaseTransferAmount 10000 = 9700 := by
  unfold release at h
  rcases hf : s.deals.find? (fun x => x.dealId == id && x.sellerId == caller) with _ | d
  · simp [hf] at h
  · simp only [hf] at h
    by_cases hs : d.status ≠ DealStatus.paid
    · rw [if_pos hs] at h
      simp at h
    · rw [if_neg hs] at h
      rcases g with _ | tid'
      · simp at h
      · injection h with h1 h2
        exact ⟨d, hf, h1.symm, by decide⟩

/-- Witness for C2: the amended release-amount theorem applied to a
concrete successful release of a 10000-cent paid deal. -/
theorem C2_release_transfer_amount_witness :
    ∃ d, c2bStore.deals.find? (fun x => x.dealId == "d2b" && x.sellerId == "seller2") =
        Option.some d ∧
      9700 = releaseTransferAmount d.amount ∧ releaseTransferAmount 10000 = 9700 :=
  C2_release_transfer_amount c2bStore "seller2" "d2b" (Option.some "tr_2b") 0 9700 "tr_2b"
    (by decide)

/-- Claim C3 counterexample: with an onboarded seller, a deal-creation
attempt whose payment-intent creation fails reports the gateway failure,
yet the Deal record is found persisted in the store (in `created` status) —
the claim demands that no Deal record be persisted. -/
theorem C3_deal_persisted_despite_gateway_failure :
    (createDeal c3Store "buyer3" "seller3" 10000 "goods" "d3" Option.none).1 =
      CreateDealResult.gatewayFailed ∧
    dealStatus (createDeal c3Store "buyer3" "seller3" 10000 "goods" "d3" Option.none).2 "d3" =
      Option.some DealStatus.created := by
  decide

/-- Claim C3 (amended): the Deal is saved before the gateway call, so
whenever validation passes and payment-intent creation fails, the
operation reports `gatewayFailed` and the orphaned Deal record is left
persisted, in `created` status with no intent reference. -/
theorem C3_gateway_failure_leaves_deal (s : Store) (b se : String) (a : Nat) (de id : String)
    (u : User)
    (hu : s.users.find? (fun x => x.telegramId == se) = Option.some u)
    (hacc : u.stripeAccountId ≠ Option.none)
    (hdup : s.deals.find? (fun d => d.dealId == id) = Option.none) :
    (createDeal s b se a de id Option.none).1 = CreateDealResult.gatewayFailed ∧
    (createDeal s b se a de id Option.none).2.deals.find? (fun d => d.dealId == id) =
      Option.some (newDeal b se a de id) := by
  unfold createDeal
  simp only [hu]
  rw [if_neg hacc]
  have hany : s.deals.any (fun d => d.dealId == id) = false := by
    rw [List.any_eq_false]
    intro d hd
    simpa using List.find?_eq_none.mp hdup d hd
  rw [hany, if_neg (by simp)]
  constructor
  · rfl
  · show (s.deals ++ [newDeal b se a de id]).find? (fun d => d.dealId == id) =
      Option.some (newDeal b se a de id)
    rw [find?_append_of_none _ hdup]
    simp [List.find?_cons, newDeal]

/-- Witness for C3: the amended theorem applied to a concrete store with
an onboarded seller. -/
theorem C3_gateway_failure_leaves_deal_witness :
    (createDeal c3Store "buyer3" "seller3" 10000 "goods" "d3" Option.none).1 =
      CreateDealResult.gatewayFailed ∧
    (createDeal c3Store "buyer3" "seller3" 10000 "goods" "d3" Option.none).2.deals.find?
        (fun d => d.dealId == "d3") =
      Option.some (newDeal "buyer3" "seller3" 10000 "goods" "d3") :=
  C3_gateway_failure_leaves_deal c3Store "buyer3" "seller3" 10000 "goods" "d3"
    (mkUser "seller3" (Option.some "acct_3") AccountStatus.active)
    (by decide) (by decide) (by decide)

/-- Claim C4 counterexample: the seller `seller4` has payment-account
status `restricted` (not `active`) but does have an account reference, and
a deal-creation attempt with this seller succeeds and persists the Deal —
the claim demands a validation failure with nothing persisted. -/
theorem C4_restricted_seller_deal_created :
    (c4Store.users.find? (fun u => u.telegramId == "seller4")).map
        (fun u => u.stripeAccountStatus) = Option.some AccountStatus.restricted ∧
    (createDeal c4Store "buyer4" "seller4" 10000 "goods" "d4" (Option.some "pi_4")).1 =
      CreateDealResult.ok "d4" ∧
    dealStatus (createDeal c4Store "buyer4" "seller4" 10000 "goods" "d4"
        (Option.some "pi_4")).2 "d4" = Option.some DealStatus.created := by
  decide

/-- Claim C4 (amended): a deal-creation attempt fails with the
seller-not-onboarded error — leaving the store unchanged — exactly when
the seller record is absent or carries no payment-account reference; the
payment-account status field is never consulted. -/
theorem C4_onboarding_check_is_account_id_only (s : Store) (b se : String) (a : Nat)
    (de id : String) (g : Option String) :
    ((createDeal s b se a de id g).1 = CreateDealResult.sellerNotOnboarded ↔
      s.users.find? (fun u => u.telegramId == se) = Option.none ∨
        ∃ u, s.users.find? (fun u => u.telegramId == se) = Option.some u ∧
          u.stripeAccountId = Option.none) ∧
    ((createDeal s b se a de id g).1 = CreateDealResult.sellerNotOnboarded →
      (createDeal s b se a de id g).2 = s) := by
  unfold createDeal
  rcases hu : s.users.find? (fun u => u.telegramId == se) with _ | u
  · simp [hu]
  · by_cases hacc : u.stripeAccountId = Option.none
    · simp [hu, hacc]
    · by_cases hdup : s.deals.any (fun d => d.dealId == id) = true
      · simp [hu, hacc, hdup]
      · rcases g with _ | pid
        · simp [hu, hacc, hdup]
        · simp [hu, hacc, hdup]

/-- Witness for C4: the amended theorem applied to a store whose seller
has no payment-account reference. -/
theorem C4_onboarding_check_witness :
    ((createDeal c4bStore "buyer4" "seller4" 10000 "goods" "d4b" (Option.some "pi_4b")).1 =
        CreateDealResult.sellerNotOnboarded ↔
      c4bStore.users.find? (fun u => u.telegramId == "seller4") = Option.none ∨
        ∃ u, c4bStore.users.find? (fun u => u.telegramId == "seller4") = Option.some u ∧
          u.stripeAccountId = Option.none) ∧
    ((createDeal c4bStore "buyer4" "seller4" 10000 "goods" "d4b" (Option.some "pi_4b")).1 =
        CreateDealResult.sellerNotOnboarded →
      (createDeal c4bStore "buyer4" "seller4" 10000 "goods" "d4b" (Option.some "pi_4b")).2 =
        c4bStore) :=
  C4_onboarding_check_is_account_id_only c4bStore "buyer4" "seller4" 10000 "goods" "d4b"
    (Option.some "pi_4b")

/-- Claim C5 counterexample: a user designating themself as seller (buyer
identity = seller identity) gets their deal created and persisted, with
`buyerId = sellerId` — the claim demands the operation fail with no Deal
persisted. -/
theorem C5_self_deal_accepted :
    (createDeal c5Store "user5" "user5" 10000 "goods" "d5" (Option.some "pi_5")).1 =
      CreateDealResult.ok "d5" ∧
    ((createDeal c5Store "user5" "user5" 10000 "goods" "d5" (Option.some "pi_5")).2.deals.find?
        (fun d => d.dealId == "d5")).map (fun d => (d.buyerId, d.sellerId)) =
      Option.some ("user5", "user5") := by
  decide

/-- Claim C5 (amended): deal creation performs no buyer-distinct-from-
seller check: whenever the caller names themself as seller and that user
has a payment-account reference (and the gateway call succeeds), the
operation succeeds and persists a Deal whose buyer and seller identities
are both the caller. -/
theorem C5_no_self_dealing_guard (s : Store) (uid : String) (a : Nat) (de id pid : String)
    (u : User)
    (hu : s.users.find? (fun x => x.telegramId == uid) = Option.some u)
    (hacc : u.stripeAccountId ≠ Option.none)
    (hdup : s.deals.find? (fun d => d.dealId == id) = Option.none) :
    (createDeal s uid uid a de id (Option.some pid)).1 = CreateDealResult.ok id ∧
    ∃ d, (createDeal s uid uid a de id (Option.some pid)).2.deals.find?
        (fun x => x.dealId == id) = Option.some d ∧ d.buyerId = uid ∧ d.sellerId = uid := by
  unfold createDeal
  simp only [hu]
  rw [if_neg hacc]
  have hany : s.deals.any (fun d => d.dealId == id) = false := by
    rw [List.any_eq_false]
    intro d hd
    simpa using List.find?_eq_none.mp hdup d hd
  rw [hany, if_neg (by simp)]
  constructor
  · rfl
  · refine ⟨{ newDeal uid uid a de id with stripePaymentIntentId := Option.some pid },
      ?_, rfl, rfl⟩
    show (saveDeal (s.deals ++ [newDeal uid uid a de id])
        { newDeal uid uid a de id with stripePaymentIntentId := Option.some pid }).find?
        (fun x => x.dealId == id) = _
    rw [saveDeal_find?_eq _ _ id rfl, find?_append_of_none _ hdup]
    simp [List.find?_cons, newDeal]

/-- Witness for C5: the amended theorem applied to the concrete
self-dealing store. -/
theorem C5_no_self_dealing_guard_witness :
    (createDeal c5Store "user5" "user5" 10000 "goods" "d5" (Option.some "pi_5")).1 =
      CreateDealResult.ok "d5" ∧
    ∃ d, (createDeal c5Store "user5" "user5" 10000 "goods" "d5" (Option.some "pi_5")).2.deals.find?
        (fun x => x.dealId == "d5") = Option.some d ∧ d.buyerId = "user5" ∧ d.sellerId = "user5" :=
  C5_no_self_dealing_guard c5Store "user5" 10000 "goods" "d5" "pi_5"
    (mkUser "user5" (Option.some "acct_5") AccountStatus.active)
    (by decide) (by decide) (by decide)

/-- Claim C6 counterexample: the deal `d6` is `cancelled`, yet a dispute
raised by its buyer succeeds and moves it to `disputed` — the claim
demands that disputing a cancelled deal fail and leave it unchanged. -/
theorem C6_cancelled_deal_disputable :
    dealStatus c6Store "d6" = Option.some DealStatus.cancelled ∧
    (dispute c6Store "buyer6" "d6" "item broken" 7).1 = DisputeResult.ok ∧
    dealStatus (dispute c6Store "buyer6" "d6" "item broken" 7).2 "d6" =
      Option.some DealStatus.disputed := by
  decide

/-- Claim C6 (amended): a dispute succeeds exactly when the caller is the
deal's buyer or seller and the status is neither `completed` nor
`disputed` — so `created`, `paid`, `cancelled` and `refunded` deals can
all be disputed — and every failing dispute leaves the store unchanged. -/
theorem C6_dispute_eligibility (s : Store) (caller id reason : String) (now : Nat) :
    ((dispute s caller id reason now).1 = DisputeResult.ok ↔
      ∃ d, disputeFind s.deals caller id = Option.some d ∧
        d.status ≠ DealStatus.completed ∧ d.status ≠ DealStatus.disputed) ∧
    ((dispute s caller id reason now).1 ≠ DisputeResult.ok →
      (dispute s caller id reason now).2 = s) := by
  unfold dispute
  rcases hf : disputeFind s.deals caller id with _ | d
  · simp [hf]
  · simp only [hf]
    by_cases hs : d.status = DealStatus.completed ∨ d.status = DealStatus.disputed
    · rw [if_pos hs]
      constructor
      · constructor
        · intro hcon
          exact absurd hcon (by simp)
        · rintro ⟨d', hd', h1, h2⟩
          obtain rfl : d = d' := by injection hd'
          rcases hs with hs | hs
          · exact absurd hs h1
          · exact absurd hs h2
      · intro _
        rfl
    · rw [if_neg hs]
      push_neg at hs
      constructor
      · constructor
        · intro _
          exact ⟨d, rfl, hs.1, hs.2⟩
        · intro _
          rfl
      · intro hcon
        exact absurd rfl hcon

/-- Witness for C6: the eligibility theorem applied to the concrete
cancelled-deal store. -/
theorem C6_dispute_eligibility_witness :
    ((dispute c6Store "buyer6" "d6" "item broken" 7).1 = DisputeResult.ok ↔
      ∃ d, disputeFind c6Store.deals "buyer6" "d6" = Option.some d ∧
        d.status ≠ DealStatus.completed ∧ d.status ≠ DealStatus.disputed) ∧
    ((dispute c6Store "buyer6" "d6" "item broken" 7).1 ≠ DisputeResult.ok →
      (dispute c6Store "buyer6" "d6" "item broken" 7).2 = c6Store) :=
  C6_dispute_eligibility c6Store "buyer6" "d6" "item broken" 7

/-- Claim C7 counterexample: a successful dispute on the paid deal `d7`
stores the reason and the timestamp, but the `disputedBy` field — the
record of which party raised the dispute — remains unset; the claim
demands all three be recorded. -/
theorem C7_initiator_not_recorded :
    (dispute c7Store "buyer7" "d7" "late delivery" 9).1 = DisputeResult.ok ∧
    ((dispute c7Store "buyer7" "d7" "late delivery" 9).2.deals.find?
        (fun d => d.dealId == "d7")).map
        (fun d => (d.disputeReason, d.disputedAt, d.disputedBy)) =
      Option.some (Option.some "late delivery", Option.some 9, Option.none) := by
  decide

/-- Claim C7 (amended): every successful dispute records the dispute
reason and the dispute timestamp on the deal, but not the initiator: the
updated deal's `disputedBy` field is exactly what it was before the
dispute (the handler never writes it). -/
theorem C7_dispute_records_reason_and_time (s : Store) (caller id reason : String) (now : Nat)
    (hnd : (s.deals.map (fun d => d.dealId)).Nodup)
    (hok : (dispute s caller id reason now).1 = DisputeResult.ok) :
    ∃ d, disputeFind s.deals caller id = Option.some d ∧
      (dispute s caller id reason now).2.deals.find? (fun x => x.dealId == id) =
        Option.some { d with
          status := DealStatus.disputed
          disputeReason := Option.some reason
          disputedAt := Option.some now } ∧
      ({ d with
          status := DealStatus.disputed
          disputeReason := Option.some reason
          disputedAt := Option.some now } : Deal).disputedBy = d.disputedBy := by
  unfold dispute at hok
  rcases hf : disputeFind s.deals caller id with _ | d
  · simp [hf] at hok
  · simp only [hf] at hok
    by_cases hs : d.status = DealStatus.completed ∨ d.status = DealStatus.disputed
    · rw [if_pos hs] at hok
      simp at hok
    · have hf' : s.deals.find?
          (fun x => x.dealId == id && (x.buyerId == caller || x.sellerId == caller)) =
          Option.some d := hf
      have hdid : d.dealId = id := by
        have h1 := List.find?_some hf'
        have h2 := (Bool.and_eq_true_iff.mp h1).1
        simpa using h2
      have hfs : s.deals.find? (fun x => x.dealId == id) = Option.some d :=
        find?_compound_of_nodup s.deals id
          (fun x => x.buyerId == caller || x.sellerId == caller) d hnd hf'
      have hstore : (dispute s caller id reason now).2 =
          { s with deals := saveDeal s.deals { d with
              status := DealStatus.disputed
              disputeReason := Option.some reason
              disputedAt := Option.some now } } := by
        unfold dispute
        simp only [hf]
        rw [if_neg hs]
      refine ⟨d, rfl, ?_, rfl⟩
      rw [hstore]
      show (saveDeal s.deals { d with
          status := DealStatus.disputed
          disputeReason := Option.some reason
          disputedAt := Option.some now }).find? (fun x => x.dealId == id) = _
      rw [saveDeal_find?_eq s.deals { d with
          status := DealStatus.disputed
          disputeReason := Option.some reason
          disputedAt := Option.some now } id hdid, hfs]
      rfl

/-- Witness for C7: the amended theorem applied to the concrete paid-deal
store. -/
theorem C7_dispute_records_reason_and_time_witness :
    ∃ d, disputeFind c7Store.deals "buyer7" "d7" = Option.some d ∧
      (dispute c7Store "buyer7" "d7" "late delivery" 9).2.deals.find?
          (fun x => x.dealId == "d7") =
        Option.some { d with
          status := DealStatus.disputed
          disputeReason := Option.some "late delivery"
          disputedAt := Option.some 9 } ∧
      ({ d with
          status := DealStatus.disputed
          disputeReason := Option.some "late delivery"
          disputedAt := Option.some 9 } : Deal).disputedBy = d.disputedBy :=
  C7_dispute_records_reason_and_time c7Store "buyer7" "d7" "late delivery" 9
    (by decide) (by decide)

/-- Claim C8: `markPaid` (the payment-succeeded webhook path) is
idempotent: applying it a second time with the same intent reference
acknowledges success and leaves the store exactly as after the first
application. -/
theorem C8_markPaid_idempotent (s : Store) (pid : String) :
    handlePaymentSucceeded (handlePaymentSucceeded s pid).1 pid =
      ((handlePaymentSucceeded s pid).1, true) := by
  unfold handlePaymentSucceeded findDealByIntent
  rcases hf : s.deals.find? (fun d => d.stripePaymentIntentId == Option.some pid) with _ | d
  · simp only [hf]
  · simp only [hf]
    have hpi : d.stripePaymentIntentId = Option.some pid := by
      have h1 := List.find?_some hf
      simpa using h1
    have hfind := find?_intent_saveDeal s.deals d { d with status := DealStatus.paid } pid
      hf rfl hpi
    simp only [hfind]
    rw [saveDeal_saveDeal]

/-- Claim C10: the payment-page endpoint mutates no state, serves the
payment form only for an existing deal in `created` status (with the
deal's own id and amount), and responds not-found both for an unknown deal
id and for a deal in any status other than `created`. -/
theorem C10_payment_page_guard (s : Store) (id : String) (g : Bool) :
    (paymentPage s id g).2 = s ∧
    (∀ fid a, (paymentPage s id g).1 = PageResponse.form fid a →
      ∃ d, s.deals.find? (fun x => x.dealId == id) = Option.some d ∧
        d.status = DealStatus.created ∧ fid = d.dealId ∧ a = d.amount) ∧
    (s.deals.find? (fun x => x.dealId == id) = Option.none →
      (paymentPage s id g).1 = PageResponse.notFound) ∧
    (∀ d, s.deals.find? (fun x => x.dealId == id) = Option.some d →
      d.status ≠ DealStatus.created → (paymentPage s id g).1 = PageResponse.notFound) := by
  refine ⟨paymentPage_store_unchanged s id g, ?_, ?_, ?_⟩
  · intro fid a hform
    unfold paymentPage at hform
    rcases hf : s.deals.find? (fun x => x.dealId == id) with _ | d
    · simp [hf] at hform
    · simp only [hf] at hform
      by_cases hs : d.status ≠ DealStatus.created
      · rw [if_pos hs] at hform
        simp at hform
      · rw [if_neg hs] at hform
        push_neg at hs
        by_cases hg : g = true
        · rw [if_pos hg] at hform
          injection hform with h1 h2
          exact ⟨d, hf, hs, h1.symm, h2.symm⟩
        · rw [if_neg hg] at hform
          simp at hform
  · intro hf
    unfold paymentPage
    rw [hf]
  · intro d hf hs
    unfold paymentPage
    simp only [hf]
    rw [if_pos hs]

/-- Witness for C10: the guard theorem applied to a concrete store whose
deal `d10` is already paid. -/
theorem C10_payment_page_guard_witness :
    (paymentPage c10Store "d10" true).2 = c10Store ∧
    (∀ fid a, (paymentPage c10Store "d10" true).1 = PageResponse.form fid a →
      ∃ d, c10Store.deals.find? (fun x => x.dealId == "d10") = Option.some d ∧
        d.status = DealStatus.created ∧ fid = d.dealId ∧ a = d.amount) ∧
    (c10Store.deals.find? (fun x => x.dealId == "d10") = Option.none →
      (paymentPage c10Store "d10" true).1 = PageResponse.notFound) ∧
    (∀ d, c10Store.deals.find? (fun x => x.dealId == "d10") = Option.some d →
      d.status ≠ DealStatus.created →
      (paymentPage c10Store "d10" true).1 = PageResponse.notFound) :=
  C10_payment_page_guard c10Store "d10" true

/-- A deal-creation step never makes an existing deal `completed`: if a
deal shows `completed` afterwards, it already was before. -/
theorem createDeal_status_completed (s : Store) (b se : String) (a : Nat) (de nid : String)
    (g : Option String) (id : String)
    (h : dealStatus (createDeal s b se a de nid g).2 id = Option.some DealStatus.completed) :
    dealStatus s id = Option.some DealStatus.completed := by
  unfold createDeal at h
  rcases hu : s.users.find? (fun u => u.telegramId == se) with _ | u
  · simp only [hu] at h
    exact h
  · simp only [hu] at h
    by_cases hacc : u.stripeAccountId = Option.none
    · rw [if_pos hacc] at h
      exact h
    · rw [if_neg hacc] at h
      by_cases hdup : s.deals.any (fun d => d.dealId == nid) = true
      · rw [if_pos hdup] at h
        exact h
      · rw [if_neg hdup] at h
        have hnone : s.deals.find? (fun d => d.dealId == nid) = Option.none := by
          rw [List.find?_eq_none]
          intro x hx hpx
          exact hdup (List.any_eq_true.mpr ⟨x, hx, hpx⟩)
        rcases g with _ | pid
        · simp only [dealStatus] at h ⊢
          by_cases hid : nid = id
          · subst hid
            rw [find?_append_of_none _ hnone] at h
            simp [List.find?_cons, newDeal] at h
          · rcases hfl : s.deals.find? (fun d => d.dealId == id) with _ | x
            · rw [find?_append_of_none _ hfl] at h
              simp [List.find?_cons, newDeal, hid] at h
            · rw [find?_append_of_some _ hfl] at h
              rw [hfl]
              exact h
        · simp only [dealStatus] at h ⊢
          by_cases hid : nid = id
          · subst hid
            rw [saveDeal_find?_eq (s.deals ++ [newDeal b se a de nid])
              { newDeal b se a de nid with stripePaymentIntentId := Option.some pid }
              nid rfl] at h
            rcases hax : (s.deals ++ [newDeal b se a de nid]).find?
                (fun d => d.dealId == nid) with _ | y
            · rw [hax] at h
              simp at h
            · rw [hax] at h
              simp [newDeal] at h
          · have hnd' : ({ newDeal b se a de nid with
                stripePaymentIntentId := Option.some pid } : Deal).dealId ≠ id := by
              simpa [newDeal] using hid
            rw [saveDeal_find?_ne _ _ id hnd'] at h
            rcases hfl : s.deals.find? (fun d => d.dealId == id) with _ | x
            · rw [find?_append_of_none _ hfl] at h
              simp [List.find?_cons, newDeal, hid] at h
            · rw [find?_append_of_some _ hfl] at h
              rw [hfl]
              exact h

/-- The payment-succeeded webhook never makes a deal `completed`: it only
writes `paid`. -/
theorem paySucceeded_status_completed (s : Store) (pid id : String)
    (h : dealStatus (handlePaymentSucceeded s pid).1 id = Option.some DealStatus.completed) :
    dealStatus s id = Option.some DealStatus.completed := by
  unfold handlePaymentSucceeded at h
  rcases hf : findDealByIntent s.deals pid with _ | d
  · simp only [hf] at h
    exact h
  · simp only [hf] at h
    simp only [dealStatus] at h ⊢
    by_cases hid : d.dealId = id
    · rw [saveDeal_find?_eq s.deals { d with status := DealStatus.paid } id hid] at h
      rcases hax : s.deals.find? (fun x => x.dealId == id) with _ | y
      · rw [hax] at h
        simp at h
      · rw [hax] at h
        simp at h
    · rw [saveDeal_find?_ne s.deals { d with status := DealStatus.paid } id hid] at h
      exact h

/-- If a deal shows `completed` after a release step, then it was already
`completed` before, or it was `paid` before (the released deal itself). -/
theorem release_status_completed (s : Store) (c did : String) (g : Option String) (now : Nat)
    (id : String) (hnd : (s.deals.map (fun d => d.dealId)).Nodup)
    (h : dealStatus (release s c did g now).2 id = Option.some DealStatus.completed) :
    dealStatus s id = Option.some DealStatus.completed ∨
      dealStatus s id = Option.some DealStatus.paid := by
  unfold release at h
  rcases hf : s.deals.find? (fun d => d.dealId == did && d.sellerId == c) with _ | d
  · simp only [hf] at h
    exact Or.inl h
  · simp only [hf] at h
    by_cases hs : d.status ≠ DealStatus.paid
    · rw [if_pos hs] at h
      exact Or.inl h
    · rw [if_neg hs] at h
      push_neg at hs
      rcases g with _ | tid
      · exact Or.inl h
      · simp only [dealStatus] at h ⊢
        by_cases hid : d.dealId = id
        · right
          have hdid : d.dealId = did := by
            have h1 := List.find?_some hf
            have h2 := (Bool.and_eq_true_iff.mp h1).1
            simpa using h2
          have hfs : s.deals.find? (fun x => x.dealId == did) = Option.some d :=
            find?_compound_of_nodup s.deals did (fun x => x.sellerId == c) d hnd hf
          have hiddid : did = id := hdid.symm.trans hid
          subst hiddid
          rw [hfs]
          simp [hs]
        · left
          rw [saveDeal_find?_ne s.deals { d with
            status := DealStatus.completed
            stripeTransferId := Option.some tid
            completedAt := Option.some now } id hid] at h
          exact h

/-- A dispute step never makes a deal `completed`: it only writes
`disputed`. -/
theorem dispute_status_completed (s : Store) (c did r : String) (now : Nat) (id : String)
    (h : dealStatus (dispute s c did r now).2 id = Option.some DealStatus.completed) :
    dealStatus s id = Option.some DealStatus.completed := by
  unfold dispute at h
  rcases hf : disputeFind s.deals c did with _ | d
  · simp only [hf] at h
    exact h
  · simp only [hf] at h
    by_cases hs : d.status = DealStatus.completed ∨ d.status = DealStatus.disputed
    · rw [if_pos hs] at h
      exact h
    · rw [if_neg hs] at h
      simp only [dealStatus] at h ⊢
      by_cases hid : d.dealId = id
      · rw [saveDeal_find?_eq s.deals { d with
            status := DealStatus.disputed
            disputeReason := Option.some r
            disputedAt := Option.some now } id hid] at h
        rcases hax : s.deals.find? (fun x => x.dealId == id) with _ | y
        · rw [hax] at h
          simp at h
        · rw [hax] at h
          simp at h
      · rw [saveDeal_find?_ne s.deals { d with
            status := DealStatus.disputed
            disputeReason := Option.some r
            disputedAt := Option.some now } id hid] at h
        exact h

/-- Every operation preserves uniqueness of stored deal ids. -/
theorem applyOp_nodup (s : Store) (op : Op)
    (hnd : (s.deals.map (fun d => d.dealId)).Nodup) :
    ((applyOp s op).deals.map (fun d => d.dealId)).Nodup := by
  cases op with
  | create b se a de nid g =>
    show (((createDeal s b se a de nid g).2).deals.map (fun d => d.dealId)).Nodup
    unfold createDeal
    rcases hu : s.users.find? (fun u => u.telegramId == se) with _ | u
    · simp only [hu]
      exact hnd
    · simp only [hu]
      by_cases hacc : u.stripeAccountId = Option.none
      · rw [if_pos hacc]
        exact hnd
      · rw [if_neg hacc]
        by_cases hdup : s.deals.any (fun d => d.dealId == nid) = true
        · rw [if_pos hdup]
          exact hnd
        · rw [if_neg hdup]
          have hnid : nid ∉ s.deals.map (fun d => d.dealId) := by
            intro hmem
            rcases List.mem_map.mp hmem with ⟨x, hx, hxe⟩
            exact hdup (List.any_eq_true.mpr ⟨x, hx, by simp [hxe]⟩)
          have happ : ((s.deals ++ [newDeal b se a de nid]).map
              (fun d => d.dealId)).Nodup := by
            rw [List.map_append, List.nodup_append]
            refine ⟨hnd, by simp, ?_⟩
            intro x hx hx1
            simp [newDeal] at hx1
            subst hx1
            exact hnid hx
          rcases g with _ | pid
          · exact happ
          · dsimp only
            rw [saveDeal_map_dealId]
            exact happ
  | paySucceeded pid =>
    show (((handlePaymentSucceeded s pid).1).deals.map (fun d => d.dealId)).Nodup
    unfold handlePaymentSucceeded
    rcases hf : findDealByIntent s.deals pid with _ | d
    · simp only [hf]
      exact hnd
    · simp only [hf]
      rw [saveDeal_map_dealId]
      exact hnd
  | payFailed pid => exact hnd
  | rel c did g now =>
    show (((release s c did g now).2).deals.map (fun d => d.dealId)).Nodup
    unfold release
    rcases hf : s.deals.find? (fun d => d.dealId == did && d.sellerId == c) with _ | d
    · simp only [hf]
      exact hnd
    · simp only [hf]
      by_cases hs : d.status ≠ DealStatus.paid
      · rw [if_pos hs]
        exact hnd
      · rw [if_neg hs]
        rcases g with _ | tid
        · exact hnd
        · dsimp only
          rw [saveDeal_map_dealId]
          exact hnd
  | disp c did r now =>
    show (((dispute s c did r now).2).deals.map (fun d => d.dealId)).Nodup
    unfold dispute
    rcases hf : disputeFind s.deals c did with _ | d
    · simp only [hf]
      exact hnd
    · simp only [hf]
      by_cases hs : d.status = DealStatus.completed ∨ d.status = DealStatus.disputed
      · rw [if_pos hs]
        exact hnd
      · rw [if_neg hs]
        dsimp only
        rw [saveDeal_map_dealId]
        exact hnd
  | page did g =>
    have hp : (paymentPage s did g).2 = s := paymentPage_store_unchanged s did g
    show (((paymentPage s did g).2).deals.map (fun d => d.dealId)).Nodup
    rw [hp]
    exact hnd

/-- One-step regression: a deal that shows `completed` after any single
operation was `completed` or `paid` before it. -/
theorem dealStatus_applyOp_completed (s : Store) (op : Op) (id : String)
    (hnd : (s.deals.map (fun d => d.dealId)).Nodup)
    (h : dealStatus (applyOp s op) id = Option.some DealStatus.completed) :
    dealStatus s id = Option.some DealStatus.completed ∨
      dealStatus s id = Option.some DealStatus.paid := by
  cases op with
  | create b se a de nid g =>
    exact Or.inl (createDeal_status_completed s b se a de nid g id h)
  | paySucceeded pid =>
    exact Or.inl (paySucceeded_status_completed s pid id h)
  | payFailed pid =>
    exact Or.inl h
  | rel c did g now =>
    exact release_status_completed s c did g now id hnd h
  | disp c did r now =>
    exact Or.inl (dispute_status_completed s c did r now id h)
  | page did g =>
    refine Or.inl ?_
    have h' : dealStatus (paymentPage s did g).2 id = Option.some DealStatus.completed := h
    rwa [paymentPage_store_unchanged] at h'

/-- Trace-level regression: from any store with unique deal ids, a deal
that shows `completed` after a run was already `completed` at the start or
was `paid` after some prefix of the run. -/
theorem run_completed_implies_paid (ops : List Op) :
    ∀ (s : Store) (id : String), (s.deals.map (fun d => d.dealId)).Nodup →
      dealStatus (run s ops) id = Option.some DealStatus.completed →
      dealStatus s id = Option.some DealStatus.completed ∨
        ∃ pre suf, ops = pre ++ suf ∧
          dealStatus (run s pre) id = Option.some DealStatus.paid := by
  induction ops with
  | nil =>
    intro s id _ h
    exact Or.inl h
  | cons op rest ih =>
    intro s id hnd h
    have h' := ih (applyOp s op) id (applyOp_nodup s op hnd) h
    rcases h' with hc | ⟨pre, suf, hps, hp⟩
    · rcases dealStatus_applyOp_completed s op id hnd hc with hc' | hp'
      · exact Or.inl hc'
      · exact Or.inr ⟨[], op :: rest, rfl, hp'⟩
    · exact Or.inr ⟨op :: pre, suf, by rw [hps, List.cons_append], hp⟩

/-- Claim C9: in every execution of the system's operations from an empty
deal store, a deal never shows status `completed` without having shown
status `paid` after some earlier prefix of the execution — `release` is the
only transition into `completed` and it requires status `paid`. -/
theorem C9_completed_requires_paid (users : List User) (ops : List Op) (id : String)
    (h : dealStatus (run { users := users, deals := [] } ops) id =
      Option.some DealStatus.completed) :
    ∃ pre suf, ops = pre ++ suf ∧
      dealStatus (run { users := users, deals := [] } pre) id =
        Option.some DealStatus.paid := by
  rcases run_completed_implies_paid ops { users := users, deals := [] } id (by simp) h with
    hc | hr
  · simp [dealStatus] at hc
  · exact hr

/-- Witness for C9: a concrete create → pay-webhook → release trace whose
deal ends `completed`, to which the theorem applies. -/
theorem C9_completed_requires_paid_witness :
    dealStatus (run { users := c9Users, deals := [] } c9Ops) "d9" =
      Option.some DealStatus.completed ∧
    ∃ pre suf, c9Ops = pre ++ suf ∧
      dealStatus (run { users := c9Users, deals := [] } pre) "d9" =
        Option.some DealStatus.paid :=
  ⟨by decide, C9_completed_requires_paid c9Users c9Ops "d9" (by decide)⟩

end Escrow
